import Mathlib

/-!
Shallow embedding of the git metadata resolution engine of the `built` crate:
`src/git_shared.rs` (override merge and short-hash derivation), `src/git.rs`
(the git2 backend) and `src/gix.rs` (the gix backend).
-/

/-- Length of the short commit hash (`SHORT_HASH_LENGTH` in git_shared.rs). -/
def SHORT_HASH_LENGTH : Nat := 8

/-- Fully resolved repository information, that may incorporate overrides
(`RepoInfo` in git_shared.rs; also the record shape of `RepositoryInfo` in
the spec and of `RepoInfo` in gix.rs). -/
structure RepoInfo where
  branch : Option String
  tag : Option String
  dirty : Option Bool
  commit_id : Option String
  commit_id_short : Option String
deriving DecidableEq, Repr

/-- The record with every field absent (`Default` for `RepoInfo`). -/
def RepoInfo.default : RepoInfo :=
  { branch := none, tag := none, dirty := none, commit_id := none, commit_id_short := none }

/-- Abstract backend outcome, as consumed by `write_git_version` in
git_shared.rs: `get_repo_head` yields an optional
(branch, commit id, short commit id) triple and `get_repo_description`
an optional (tag, dirty) pair; `none` is the "unavailable" outcome. -/
structure Backend where
  get_repo_head : Option (Option String × String × String)
  get_repo_description : Option (String × Bool)
deriving DecidableEq, Repr

/-- The record as serialized by `write_variables` (git_shared.rs, lines 92-94):
if we have a commit hash but no short hash, generate the short hash from the
first `SHORT_HASH_LENGTH` characters of the full hash
(`h.chars().take(SHORT_HASH_LENGTH).collect()`). -/
def write_variables (r : RepoInfo) : RepoInfo :=
  match r.commit_id, r.commit_id_short with
  | some h, none => { r with commit_id_short := some ⟨h.data.take SHORT_HASH_LENGTH⟩ }
  | _, _ => r

/-- First step of `write_git_version` (git_shared.rs, lines 48-56): if
`branch`, `commit_id` or `commit_id_short` is still unset, invoke
`get_repo_head` and fill the unset fields with `Option::or`
(overrides win). -/
def headStep (b : Backend) (ov : RepoInfo) : RepoInfo :=
  if ov.branch.isNone || ov.commit_id.isNone || ov.commit_id_short.isNone then
    match b.get_repo_head with
    | some (git_branch, git_commit_id, git_commit_short_id) =>
        { ov with
          branch := ov.branch.or git_branch,
          commit_id := ov.commit_id.or (some git_commit_id),
          commit_id_short := ov.commit_id_short.or (some git_commit_short_id) }
    | none => ov
  else ov

/-- Second step of `write_git_version` (git_shared.rs, lines 58-65): if
`tag` or `dirty` is still unset, invoke `get_repo_description` and fill
the unset fields with `Option::or`. -/
def descStep (b : Backend) (s1 : RepoInfo) : RepoInfo :=
  if s1.tag.isNone || s1.dirty.isNone then
    match b.get_repo_description with
    | some (git_tag, git_dirty) =>
        { s1 with tag := s1.tag.or (some git_tag), dirty := s1.dirty.or (some git_dirty) }
    | none => s1
  else s1

/-- The resolved record produced by `write_git_version` in git_shared.rs:
start from the override record, apply the head step, then the describe
step, then serialize via `write_variables`. -/
def write_git_version (b : Backend) (ov : RepoInfo) : RepoInfo :=
  write_variables (descStep b (headStep b ov))

/-- Reference resolver that always invokes both queries and performs the
same field-wise `Option::or` merge, for comparison with the step-skipping
resolver. -/
def write_git_version_always (b : Backend) (ov : RepoInfo) : RepoInfo :=
  let s1 :=
    match b.get_repo_head with
    | some (git_branch, git_commit_id, git_commit_short_id) =>
        { ov with
          branch := ov.branch.or git_branch,
          commit_id := ov.commit_id.or (some git_commit_id),
          commit_id_short := ov.commit_id_short.or (some git_commit_short_id) }
    | none => ov
  let s2 :=
    match b.get_repo_description with
    | some (git_tag, git_dirty) =>
        { s1 with tag := s1.tag.or (some git_tag), dirty := s1.dirty.or (some git_dirty) }
    | none => s1
  write_variables s2

/-- The step-skipping resolver instrumented with the number of times it
invokes `get_repo_head` and `get_repo_description`. -/
def write_git_version_counted (b : Backend) (ov : RepoInfo) : RepoInfo × Nat × Nat :=
  let headCalls : Nat :=
    if ov.branch.isNone || ov.commit_id.isNone || ov.commit_id_short.isNone then 1 else 0
  let s1 := headStep b ov
  let descCalls : Nat := if s1.tag.isNone || s1.dirty.isNone then 1 else 0
  (write_variables (descStep b s1), headCalls, descCalls)

/-!
Abstract repository state, over which both backends are embedded. The state
records the outcome of every repository query the two backends perform:
discovery, reading the reference HEAD points to, resolving HEAD's commit,
`describe`, and status enumeration. libgit2 semantics used by git.rs:
`Repository::head()` fails on an unborn branch (a HEAD that points to a
branch with no commit yet) and on an ill-formed HEAD reference; gix's
`head_name()` succeeds on an unborn branch and reports the pointed-to name.
-/

/-- Status of one working-tree/index entry as enumerated by
`git2::Repository::statuses`. `current` is `git2::Status::CURRENT`;
`indexChanged`/`wtChanged` stand for any changed status of a tracked file;
`ignored` and `untracked` are the entries excluded by
`include_ignored(false)` / `include_untracked(false)`. -/
inductive EntryStatus where
  | current
  | indexChanged
  | wtChanged
  | ignored
  | untracked
deriving DecidableEq, Repr

/-- An entry is about a tracked file (neither ignored nor untracked). -/
def EntryStatus.tracked : EntryStatus → Bool
  | .ignored => false
  | .untracked => false
  | _ => true

/-- HEAD's commit, with the full hash and each backend's natively
abbreviated form (`short_id()` for git2, `id().shorten()` for gix; the two
may differ in length). -/
structure Commit where
  id : String
  shortGit2 : String
  shortGix : String
deriving DecidableEq, Repr

/-- State of a discovered repository: every query outcome the backends
read from it. -/
structure RepoCore where
  /-- Reading the reference HEAD points to fails (ill-formed reference):
  `repo.head()` errors in git2, `head_name()` errors in gix. -/
  headNameFails : Bool
  /-- Name of the branch HEAD points to; `none` when HEAD is detached or
  the name is not valid UTF-8. -/
  headRefName : Option String
  /-- The commit HEAD resolves to; `none` when HEAD's branch is unborn. -/
  headCommit : Option Commit
  /-- git2's describe query fails (e.g. corrupted tag data). -/
  describeGit2Fails : Bool
  /-- git2's describe format (`describe_tags()` selects all tags, annotated
  and lightweight, with `show_commit_oid_as_fallback(true)`): nearest tag
  of either kind, or the abbreviated-commit-id fallback. -/
  describeStrGit2 : String
  /-- gix's describe query fails. -/
  describeGixFails : Bool
  /-- gix's describe format (`commit.describe().format()`, whose default
  ref selection is annotated tags only, with the commit id as fallback
  when no name is found): nearest annotated tag, or the commit-id
  fallback. On a repository whose nearest tag is lightweight this differs
  from git2's describe format. -/
  describeStrGix : String
  /-- Status enumeration fails. -/
  statusFails : Bool
  /-- The status entries of the working tree and index. -/
  entries : List EntryStatus
deriving DecidableEq, Repr

/-- What repository discovery at (or walking upward from) the query path
yields: no repository anywhere in the ancestry, a genuine discovery error
(corruption, permission denial), or a repository. -/
inductive RepoState where
  | notFound
  | fail
  | repo (r : RepoCore)
deriving DecidableEq, Repr

/-- Result of a git2 backend call: `Ok` or a genuine `git2::Error`
(error details abstracted). -/
inductive GitResult (α : Type) where
  | ok (a : α)
  | err
deriving DecidableEq, Repr

/-- `statuses(Some(&mut st_opt))` with `include_ignored(false)` and
`include_untracked(false)`: the enumerated entries with ignored and
untracked ones excluded. -/
def statusEntries (l : List EntryStatus) : List EntryStatus :=
  l.filter (fun e => e.tracked)

/-- `.iter().any(|status| !matches!(status.status(), git2::Status::CURRENT))`
over the filtered status entries. -/
def isDirtyEntries (l : List EntryStatus) : Bool :=
  (statusEntries l).any (fun e => !(e == .current))

namespace Git

/-- `get_repo_description` of git.rs (git2 backend): on successful
discovery, describe with tag-then-oid fallback, then status enumeration;
"repository not found" maps to `Ok(None)`; every other failure is
returned as an error. -/
def get_repo_description (s : RepoState) : GitResult (Option (String × Bool)) :=
  match s with
  | .notFound => .ok none
  | .fail => .err
  | .repo r =>
    if r.describeGit2Fails then .err
    else if r.statusFails then .err
    else .ok (some (r.describeStrGit2, isDirtyEntries r.entries))

/-- `get_repo_head` of git.rs (git2 backend): on successful discovery,
`repo.head()?` (errors on an unborn branch or ill-formed HEAD), branch
name `None` when detached, then HEAD's commit and short id; "repository
not found" maps to `Ok(None)`; every other failure is returned as an
error. -/
def get_repo_head (s : RepoState) :
    GitResult (Option (Option String × String × String)) :=
  match s with
  | .notFound => .ok none
  | .fail => .err
  | .repo r =>
    if r.headNameFails then .err
    else
      match r.headCommit with
      | none => .err
      | some c => .ok (some (r.headRefName, c.id, c.shortGit2))

/-- `write_git_version` of git.rs: both query results are converted to
options, every non-`Ok(Some ...)` outcome collapsing to absent fields,
and the record is serialized via `write_variables`. -/
def write_git_version (s : RepoState) : RepoInfo :=
  let td : Option String × Option Bool :=
    match get_repo_description s with
    | .ok (some (tag, dirty)) => (some tag, some dirty)
    | _ => (none, none)
  let bcc : Option String × Option String × Option String :=
    match get_repo_head s with
    | .ok (some (b, c, cs)) => (b, some c, some cs)
    | _ => (none, none, none)
  write_variables
    { branch := bcc.1, tag := td.1, dirty := td.2,
      commit_id := bcc.2.1, commit_id_short := bcc.2.2 }

end Git

namespace Gix

/-- `is_dirty` of gix.rs: discovery and status enumeration through git2,
with every failure swallowed into `None` (`.ok()?`), and the same
dirtiness computation as the git2 backend. -/
def is_dirty (s : RepoState) : Option Bool :=
  match s with
  | .notFound => none
  | .fail => none
  | .repo r =>
    if r.statusFails then none
    else some (isDirtyEntries r.entries)

/-- `get_repo_info` of gix.rs: every failure of discovery or of
`head_name()` is swallowed into `None`; when HEAD has a commit the full
record is produced (describe and shorten failures degrade their single
field to `None`); when HEAD has no commit (unborn branch) a record with
only `branch` possibly set is produced. -/
def get_repo_info (s : RepoState) : Option RepoInfo :=
  match s with
  | .notFound => none
  | .fail => none
  | .repo r =>
    if r.headNameFails then none
    else
      match r.headCommit with
      | some c =>
        some { branch := r.headRefName,
               tag := if r.describeGixFails then none else some r.describeStrGix,
               dirty := is_dirty s,
               commit_id := some c.id,
               commit_id_short := some c.shortGix }
      | none =>
        some { RepoInfo.default with branch := r.headRefName }

end Gix

/-!
Concrete repository states and override records used to instantiate the
theorems below.
-/

/-- A repository whose HEAD points to `refs/heads/main`, a branch with no
commit yet (unborn branch). -/
def unbornRepo : RepoCore :=
  { headNameFails := false, headRefName := some "refs/heads/main",
    headCommit := none, describeGit2Fails := false, describeStrGit2 := "",
    describeGixFails := false, describeStrGix := "",
    statusFails := false, entries := [] }

/-- A healthy repository on `refs/heads/main` at a commit carrying the
annotated tag `v1.0.0` (so both backends' describe formats agree), with
one modified tracked file. -/
def mainRepo : RepoCore :=
  { headNameFails := false, headRefName := some "refs/heads/main",
    headCommit := some { id := "0123456789abcdef", shortGit2 := "01234567",
                         shortGix := "0123456789" },
    describeGit2Fails := false, describeStrGit2 := "v1.0.0",
    describeGixFails := false, describeStrGix := "v1.0.0",
    statusFails := false, entries := [.current, .wtChanged] }

/-- Override record that supplies only `commit_id`. -/
def commitOnlyOverrides : RepoInfo :=
  { branch := none, tag := none, dirty := none,
    commit_id := some "0123456789abcdef", commit_id_short := none }

/-- A backend whose HEAD query yields a commit different from the
`commit_id` override of `commitOnlyOverrides`. -/
def otherHeadBackend : Backend :=
  { get_repo_head := some (none, "feedc0defeedc0de", "feedc0de"),
    get_repo_description := none }

/-- The backend outcome at a path with no repository anywhere in its
ancestry: both queries are unavailable. -/
def unavailableBackend : Backend :=
  { get_repo_head := none, get_repo_description := none }

/-!
Helper lemmas about the resolver steps.
-/

theorem or_eq_self_of_isNone_false {α : Type} {a : Option α} (x : Option α)
    (h : a.isNone = false) : a.or x = a := by
  cases a <;> simp_all

theorem write_variables_branch (r : RepoInfo) : (write_variables r).branch = r.branch := by
  unfold write_variables; split <;> rfl

theorem write_variables_tag (r : RepoInfo) : (write_variables r).tag = r.tag := by
  unfold write_variables; split <;> rfl

theorem write_variables_dirty (r : RepoInfo) : (write_variables r).dirty = r.dirty := by
  unfold write_variables; split <;> rfl

theorem write_variables_commit_id (r : RepoInfo) :
    (write_variables r).commit_id = r.commit_id := by
  unfold write_variables; split <;> rfl

theorem write_variables_short_of_some (r : RepoInfo) (v : String)
    (h : r.commit_id_short = some v) : (write_variables r).commit_id_short = some v := by
  unfold write_variables
  cases hc : r.commit_id <;> simp [h, hc]

theorem write_variables_short_of_commit_none (r : RepoInfo)
    (h : r.commit_id = none) : (write_variables r).commit_id_short = r.commit_id_short := by
  unfold write_variables
  cases hcs : r.commit_id_short <;> simp [h, hcs]

theorem write_variables_short_derive (r : RepoInfo) (h : String)
    (hc : r.commit_id = some h) (hcs : r.commit_id_short = none) :
    (write_variables r).commit_id_short = some ⟨h.data.take SHORT_HASH_LENGTH⟩ := by
  unfold write_variables; simp [hc, hcs]

theorem headStep_tag (b : Backend) (ov : RepoInfo) : (headStep b ov).tag = ov.tag := by
  unfold headStep; split
  · split <;> rfl
  · rfl

theorem headStep_dirty (b : Backend) (ov : RepoInfo) : (headStep b ov).dirty = ov.dirty := by
  unfold headStep; split
  · split <;> rfl
  · rfl

theorem headStep_branch_of_some (b : Backend) (ov : RepoInfo) (v : String)
    (h : ov.branch = some v) : (headStep b ov).branch = some v := by
  unfold headStep; split
  · split
    · simp [h]
    · exact h
  · exact h

theorem headStep_commit_id_of_some (b : Backend) (ov : RepoInfo) (v : String)
    (h : ov.commit_id = some v) : (headStep b ov).commit_id = some v := by
  unfold headStep; split
  · split
    · simp [h]
    · exact h
  · exact h

theorem headStep_short_of_some (b : Backend) (ov : RepoInfo) (v : String)
    (h : ov.commit_id_short = some v) : (headStep b ov).commit_id_short = some v := by
  unfold headStep; split
  · split
    · simp [h]
    · exact h
  · exact h

theorem headStep_of_head_none (b : Backend) (ov : RepoInfo)
    (h : b.get_repo_head = none) : headStep b ov = ov := by
  unfold headStep; split
  · simp [h]
  · rfl

theorem descStep_branch (b : Backend) (s1 : RepoInfo) :
    (descStep b s1).branch = s1.branch := by
  unfold descStep; split
  · split <;> rfl
  · rfl

theorem descStep_commit_id (b : Backend) (s1 : RepoInfo) :
    (descStep b s1).commit_id = s1.commit_id := by
  unfold descStep; split
  · split <;> rfl
  · rfl

theorem descStep_short (b : Backend) (s1 : RepoInfo) :
    (descStep b s1).commit_id_short = s1.commit_id_short := by
  unfold descStep; split
  · split <;> rfl
  · rfl

theorem descStep_tag_of_some (b : Backend) (s1 : RepoInfo) (v : String)
    (h : s1.tag = some v) : (descStep b s1).tag = some v := by
  unfold descStep; split
  · split
    · simp [h]
    · exact h
  · exact h

theorem descStep_dirty_of_some (b : Backend) (s1 : RepoInfo) (v : Bool)
    (h : s1.dirty = some v) : (descStep b s1).dirty = some v := by
  unfold descStep; split
  · split
    · simp [h]
    · exact h
  · exact h

theorem descStep_of_desc_none (b : Backend) (s1 : RepoInfo)
    (h : b.get_repo_description = none) : descStep b s1 = s1 := by
  unfold descStep; split
  · simp [h]
  · rfl

/-!
Claim theorems.
-/

/-- C3: after the merge of overrides and backend results, if `commit_id`
is present and `commit_id_short` is absent, `write_variables` makes
`commit_id_short` present and equal to the first `SHORT_HASH_LENGTH`
characters of `commit_id`; if `commit_id_short` is already present it is
left unchanged. -/
theorem short_hash_fixup (r : RepoInfo) :
    (∀ h : String, r.commit_id = some h → r.commit_id_short = none →
      (write_variables r).commit_id_short = some ⟨h.data.take SHORT_HASH_LENGTH⟩) ∧
    (r.commit_id_short.isSome = true → (write_variables r).commit_id_short = r.commit_id_short) := by
  constructor
  · intro h hc hcs
    exact write_variables_short_derive r h hc hcs
  · intro hs
    obtain ⟨v, hv⟩ := Option.isSome_iff_exists.mp hs
    rw [write_variables_short_of_some r v hv, hv]

/-- Witness for C3 at a concrete record: the derived short hash of
`"0123456789"` is `"01234567"`. -/
theorem short_hash_fixup_witness :
    (write_variables
      { branch := none, tag := none, dirty := none,
        commit_id := some "0123456789", commit_id_short := none }).commit_id_short =
      some "01234567" := by
  rw [(short_hash_fixup _).1 "0123456789" rfl rfl]
  decide

/-- C9: the short hash derived by `write_variables` is a prefix of
`commit_id` of length `min SHORT_HASH_LENGTH (length commit_id)`; for a
`commit_id` shorter than `SHORT_HASH_LENGTH` characters it equals the
entire `commit_id`, with no error and no padding. -/
theorem short_hash_derivation (r : RepoInfo) (h : String)
    (hc : r.commit_id = some h) (hcs : r.commit_id_short = none) :
    ∃ s : String, (write_variables r).commit_id_short = some s ∧
      (∃ t, s.data ++ t = h.data) ∧
      s.data.length = min SHORT_HASH_LENGTH h.data.length ∧
      (h.data.length ≤ SHORT_HASH_LENGTH → s = h) := by
  refine ⟨⟨h.data.take SHORT_HASH_LENGTH⟩, write_variables_short_derive r h hc hcs,
    ⟨h.data.drop SHORT_HASH_LENGTH, List.take_append_drop _ _⟩, ?_, ?_⟩
  · simp [List.length_take]
  · intro hle
    show (⟨h.data.take SHORT_HASH_LENGTH⟩ : String) = h
    rw [List.take_of_length_le hle]

/-- Witness for C9 at a concrete record with a 3-character commit id. -/
theorem short_hash_derivation_witness :
    ∃ s : String,
      (write_variables
        { branch := none, tag := none, dirty := none,
          commit_id := some "abc", commit_id_short := none }).commit_id_short = some s ∧
      (∃ t, s.data ++ t = ("abc" : String).data) ∧
      s.data.length = min SHORT_HASH_LENGTH ("abc" : String).data.length ∧
      (("abc" : String).data.length ≤ SHORT_HASH_LENGTH → s = "abc") :=
  short_hash_derivation _ "abc" rfl rfl

/-- C2: for every field of the record, if an override value is supplied
for that field, the resolved record's value for that field equals the
override, for every possible backend outcome of `get_repo_head` and
`get_repo_description`. -/
theorem overrides_dominate (b : Backend) (ov : RepoInfo) :
    (∀ v, ov.branch = some v → (write_git_version b ov).branch = some v) ∧
    (∀ v, ov.tag = some v → (write_git_version b ov).tag = some v) ∧
    (∀ v, ov.dirty = some v → (write_git_version b ov).dirty = some v) ∧
    (∀ v, ov.commit_id = some v → (write_git_version b ov).commit_id = some v) ∧
    (∀ v, ov.commit_id_short = some v →
      (write_git_version b ov).commit_id_short = some v) := by
  unfold write_git_version
  refine ⟨fun v h => ?_, fun v h => ?_, fun v h => ?_, fun v h => ?_, fun v h => ?_⟩
  · rw [write_variables_branch, descStep_branch]
    exact headStep_branch_of_some b ov v h
  · rw [write_variables_tag]
    exact descStep_tag_of_some b _ v (by rw [headStep_tag]; exact h)
  · rw [write_variables_dirty]
    exact descStep_dirty_of_some b _ v (by rw [headStep_dirty]; exact h)
  · rw [write_variables_commit_id, descStep_commit_id]
    exact headStep_commit_id_of_some b ov v h
  · apply write_variables_short_of_some
    rw [descStep_short]
    exact headStep_short_of_some b ov v h

/-- Witness for C2: with all five fields overridden and a backend that
reports different values, every resolved field equals its override. -/
theorem overrides_dominate_witness :
    (write_git_version otherHeadBackend
      { branch := some "refs/heads/dev", tag := some "v2", dirty := some false,
        commit_id := some "aaaa", commit_id_short := some "aa" }).branch =
          some "refs/heads/dev" ∧
    (write_git_version otherHeadBackend
      { branch := some "refs/heads/dev", tag := some "v2", dirty := some false,
        commit_id := some "aaaa", commit_id_short := some "aa" }).tag = some "v2" ∧
    (write_git_version otherHeadBackend
      { branch := some "refs/heads/dev", tag := some "v2", dirty := some false,
        commit_id := some "aaaa", commit_id_short := some "aa" }).dirty = some false ∧
    (write_git_version otherHeadBackend
      { branch := some "refs/heads/dev", tag := some "v2", dirty := some false,
        commit_id := some "aaaa", commit_id_short := some "aa" }).commit_id = some "aaaa" ∧
    (write_git_version otherHeadBackend
      { branch := some "refs/heads/dev", tag := some "v2", dirty := some false,
        commit_id := some "aaaa", commit_id_short := some "aa" }).commit_id_short =
          some "aa" :=
  ⟨(overrides_dominate _ _).1 _ rfl, (overrides_dominate _ _).2.1 _ rfl,
   (overrides_dominate _ _).2.2.1 _ rfl, (overrides_dominate _ _).2.2.2.1 _ rfl,
   (overrides_dominate _ _).2.2.2.2 _ rfl⟩

/-- C1 counterexample: `commit_id` is overridden with
`"0123456789abcdef"` (whose first 8 characters are `"01234567"`) and
`commit_id_short` is not overridden, yet with a backend whose head query
reports short hash `"feedc0de"`, the resolved `commit_id_short` is the
backend's `"feedc0de"`, not the first 8 characters of the overridden
`commit_id`. -/
theorem override_commit_only_counterexample :
    commitOnlyOverrides.commit_id = some "0123456789abcdef" ∧
    commitOnlyOverrides.commit_id_short = none ∧
    (⟨("0123456789abcdef" : String).data.take SHORT_HASH_LENGTH⟩ : String) = "01234567" ∧
    (write_git_version otherHeadBackend commitOnlyOverrides).commit_id_short =
      some "feedc0de" ∧
    (write_git_version otherHeadBackend commitOnlyOverrides).commit_id_short ≠
      some "01234567" := by
  decide

/-- C1 amended: if an override supplies `commit_id` but not
`commit_id_short`, then when the backend's head query is unavailable the
resolved `commit_id_short` equals the first `SHORT_HASH_LENGTH` characters
of the overridden `commit_id`; when the head query yields a result, the
resolved `commit_id_short` is the backend's short hash instead. -/
theorem override_commit_only_amended (b : Backend) (ov : RepoInfo) (h : String)
    (hc : ov.commit_id = some h) (hcs : ov.commit_id_short = none) :
    (b.get_repo_head = none →
      (write_git_version b ov).commit_id_short =
        some ⟨h.data.take SHORT_HASH_LENGTH⟩) ∧
    (∀ gb gc gcs, b.get_repo_head = some (gb, gc, gcs) →
      (write_git_version b ov).commit_id_short = some gcs) := by
  constructor
  · intro hh
    unfold write_git_version
    rw [headStep_of_head_none b ov hh]
    apply write_variables_short_derive
    · rw [descStep_commit_id]; exact hc
    · rw [descStep_short]; exact hcs
  · intro gb gc gcs hh
    unfold write_git_version
    have h1 : (headStep b ov).commit_id_short = some gcs := by
      unfold headStep
      rw [if_pos]
      · rw [hh]; simp [hcs]
      · simp [hcs]
    apply write_variables_short_of_some
    rw [descStep_short]
    exact h1

/-- Witness for the amended C1: with an unavailable backend, the override
`"0123456789abcdef"` yields the derived short hash `"01234567"`. -/
theorem override_commit_only_amended_witness :
    (write_git_version unavailableBackend commitOnlyOverrides).commit_id_short =
      some "01234567" := by
  rw [(override_commit_only_amended unavailableBackend commitOnlyOverrides
    "0123456789abcdef" rfl rfl).1 rfl]
  decide

/-- C5: at a path with no repository anywhere in its ancestry, both git2
queries return the benign unavailable outcome (not an error), the gix
queries return `none`, the resolution does not fail, every backend-sourced
field of the resolved record is absent (the record reduces to the override
record passed through `write_variables`), and every overridden field still
carries its override value. -/
theorem no_repository_resolution (ov : RepoInfo) :
    Git.get_repo_head .notFound = .ok none ∧
    Git.get_repo_description .notFound = .ok none ∧
    Gix.get_repo_info .notFound = none ∧
    Gix.is_dirty .notFound = none ∧
    write_git_version unavailableBackend ov = write_variables ov ∧
    (write_git_version unavailableBackend ov).branch = ov.branch ∧
    (write_git_version unavailableBackend ov).tag = ov.tag ∧
    (write_git_version unavailableBackend ov).dirty = ov.dirty ∧
    (write_git_version unavailableBackend ov).commit_id = ov.commit_id ∧
    (ov.commit_id = none →
      (write_git_version unavailableBackend ov).commit_id_short = ov.commit_id_short) ∧
    (∀ v, ov.commit_id_short = some v →
      (write_git_version unavailableBackend ov).commit_id_short = some v) := by
  have hwv : write_git_version unavailableBackend ov = write_variables ov := by
    unfold write_git_version
    rw [headStep_of_head_none _ _ rfl, descStep_of_desc_none _ _ rfl]
  refine ⟨rfl, rfl, rfl, rfl, hwv, ?_, ?_, ?_, ?_, ?_, ?_⟩
  · rw [hwv, write_variables_branch]
  · rw [hwv, write_variables_tag]
  · rw [hwv, write_variables_dirty]
  · rw [hwv, write_variables_commit_id]
  · intro hc; rw [hwv, write_variables_short_of_commit_none ov hc]
  · intro v hv; rw [hwv]; exact write_variables_short_of_some ov v hv

/-- Witness for C5: the overridden short hash survives resolution at a
path with no repository. -/
theorem no_repository_resolution_witness :
    (write_git_version unavailableBackend
      { branch := some "refs/heads/x", tag := none, dirty := none,
        commit_id := none, commit_id_short := some "s" }).commit_id_short =
      some "s" :=
  (no_repository_resolution _).2.2.2.2.2.2.2.2.2.2 "s" rfl

/-- The conditional head step agrees with the unconditional head merge:
skipping the head query when all three of its fields are overridden does
not change the result. -/
theorem headStep_eq_merge (b : Backend) (ov : RepoInfo) :
    headStep b ov =
      (match b.get_repo_head with
       | some (git_branch, git_commit_id, git_commit_short_id) =>
           { ov with
             branch := ov.branch.or git_branch,
             commit_id := ov.commit_id.or (some git_commit_id),
             commit_id_short := ov.commit_id_short.or (some git_commit_short_id) }
       | none => ov) := by
  cases hh : b.get_repo_head with
  | none => rw [headStep_of_head_none b ov hh]
  | some x =>
    obtain ⟨gb, gc, gcs⟩ := x
    obtain ⟨br, tg, di, ci, cis⟩ := ov
    unfold headStep
    cases br <;> cases ci <;> cases cis <;> simp [hh]

/-- The conditional describe step agrees with the unconditional describe
merge: skipping the describe query when both of its fields are overridden
does not change the result. -/
theorem descStep_eq_merge (b : Backend) (s1 : RepoInfo) :
    descStep b s1 =
      (match b.get_repo_description with
       | some (git_tag, git_dirty) =>
           { s1 with
             tag := s1.tag.or (some git_tag),
             dirty := s1.dirty.or (some git_dirty) }
       | none => s1) := by
  cases hh : b.get_repo_description with
  | none => rw [descStep_of_desc_none b s1 hh]
  | some x =>
    obtain ⟨gt, gd⟩ := x
    obtain ⟨br, tg, di, ci, cis⟩ := s1
    unfold descStep
    cases tg <;> cases di <;> simp [hh]

/-- C8: the step-skipping resolver produces exactly the same resolved
record as a resolver that always invokes both queries, and it invokes each
query at most once per resolution. -/
theorem query_skipping_equivalence (b : Backend) (ov : RepoInfo) :
    write_git_version b ov = write_git_version_always b ov ∧
    (write_git_version_counted b ov).1 = write_git_version b ov ∧
    (write_git_version_counted b ov).2.1 ≤ 1 ∧
    (write_git_version_counted b ov).2.2 ≤ 1 := by
  refine ⟨?_, rfl, ?_, ?_⟩
  · show write_variables (descStep b (headStep b ov)) = _
    rw [descStep_eq_merge, headStep_eq_merge]
    rfl
  · dsimp only [write_git_version_counted]
    split <;> simp
  · dsimp only [write_git_version_counted]
    split <;> simp

/-- C6: in the git2 backend, both `get_repo_description` and
`get_repo_head` map "repository not found at or above the path" — and
only that condition — to the benign unavailable outcome `Ok(None)`, and
return every other failure (discovery error, ill-formed reference,
unborn HEAD, describe failure, status failure) as a distinct error; the
two policies are never mixed within the backend. -/
theorem git2_error_policy (s : RepoState) :
    (Git.get_repo_head s = .ok none ↔ s = .notFound) ∧
    (Git.get_repo_description s = .ok none ↔ s = .notFound) ∧
    (s = .fail → Git.get_repo_head s = .err ∧ Git.get_repo_description s = .err) ∧
    (∀ r, s = .repo r →
      (Git.get_repo_head s = .err ↔ (r.headNameFails = true ∨ r.headCommit = none))) ∧
    (∀ r, s = .repo r →
      (Git.get_repo_description s = .err ↔
        (r.describeGit2Fails = true ∨ r.statusFails = true))) := by
  rcases s with _ | _ | r
  · simp [Git.get_repo_head, Git.get_repo_description]
  · simp [Git.get_repo_head, Git.get_repo_description]
  · obtain ⟨hn, nm, hc, df, ds2, dxf, dsx, sf, en⟩ := r
    cases hn <;> cases hc <;> cases df <;> cases sf <;>
      simp [Git.get_repo_head, Git.get_repo_description]

/-- Witness for C6: the unborn-branch repository makes `get_repo_head`
error, and a genuine discovery failure makes both queries error. -/
theorem git2_error_policy_witness :
    Git.get_repo_head (.repo unbornRepo) = .err ∧
    Git.get_repo_head .fail = .err ∧
    Git.get_repo_description .fail = .err := by
  refine ⟨((git2_error_policy (.repo unbornRepo)).2.2.2.1 unbornRepo rfl).mpr
    (Or.inr rfl), ?_, ?_⟩
  · exact ((git2_error_policy .fail).2.2.1 rfl).1
  · exact ((git2_error_policy .fail).2.2.1 rfl).2

/-- C10: in the gix backend, when a repository is discovered, the HEAD
reference name resolves, and HEAD has no commit (an unborn branch),
`get_repo_info` returns a present record whose `branch` field may be set
while `tag`, `dirty`, `commit_id` and `commit_id_short` are all absent. -/
theorem gix_unborn_branch (r : RepoCore) (hn : r.headNameFails = false)
    (hc : r.headCommit = none) :
    Gix.get_repo_info (.repo r) =
      some { branch := r.headRefName, tag := none, dirty := none,
             commit_id := none, commit_id_short := none } := by
  unfold Gix.get_repo_info
  simp [hn, hc, RepoInfo.default]

/-- Witness for C10: the unborn-branch repository yields a record that
carries `refs/heads/main` without any commit hash. -/
theorem gix_unborn_branch_witness :
    Gix.get_repo_info (.repo unbornRepo) =
      some { branch := some "refs/heads/main", tag := none, dirty := none,
             commit_id := none, commit_id_short := none } := by
  rw [gix_unborn_branch unbornRepo rfl rfl]
  rfl

/-- C7: dirtiness holds iff at least one tracked entry's status is not
current/unmodified; ignored and untracked entries are excluded from the
enumeration and never make the result dirty; both backends report exactly
this computation. -/
theorem dirty_detection (l : List EntryStatus) (r : RepoCore)
    (hd : r.describeGit2Fails = false) (hs : r.statusFails = false) :
    (isDirtyEntries l = true ↔
      ∃ e ∈ l, e.tracked = true ∧ e ≠ EntryStatus.current) ∧
    isDirtyEntries (l ++ [EntryStatus.ignored]) = isDirtyEntries l ∧
    isDirtyEntries (l ++ [EntryStatus.untracked]) = isDirtyEntries l ∧
    Git.get_repo_description (.repo r) =
      .ok (some (r.describeStrGit2, isDirtyEntries r.entries)) ∧
    Gix.is_dirty (.repo r) = some (isDirtyEntries r.entries) := by
  refine ⟨?_, ?_, ?_, ?_, ?_⟩
  · simp only [isDirtyEntries, statusEntries, List.any_eq_true, List.mem_filter]
    constructor
    · rintro ⟨e, ⟨hmem, htr⟩, hne⟩
      exact ⟨e, hmem, htr, by simpa using hne⟩
    · rintro ⟨e, hmem, htr, hne⟩
      exact ⟨e, ⟨hmem, htr⟩, by simpa using hne⟩
  · simp [isDirtyEntries, statusEntries, List.filter_append, EntryStatus.tracked]
  · simp [isDirtyEntries, statusEntries, List.filter_append, EntryStatus.tracked]
  · unfold Git.get_repo_description
    simp [hd, hs]
  · unfold Gix.is_dirty
    simp [hs]

/-- Witness for C7: one modified tracked file makes the repository dirty,
and `mainRepo` is reported dirty by the gix backend. -/
theorem dirty_detection_witness :
    isDirtyEntries [EntryStatus.current, EntryStatus.wtChanged] = true ∧
    Gix.is_dirty (.repo mainRepo) = some true := by
  constructor
  · exact (dirty_detection [EntryStatus.current, EntryStatus.wtChanged] mainRepo
      rfl rfl).1.mpr ⟨EntryStatus.wtChanged, by decide, by decide, by decide⟩
  · have h := (dirty_detection [] mainRepo rfl rfl).2.2.2.2
    rw [h]
    decide

